import Mathlib

/-!
Shallow embedding of the gputrasher repository (src/hello-triangle.cpp,
src/utils.h, src/utils.cpp): a single-threaded D3D12 hello-triangle
program.  External graphics API calls are modelled by the HRESULT values
the environment returns for them; machine integers are Nat/Int, with an
explicit reduction modulo 2 ^ 64 where the source uses UINT64 arithmetic
(the fence value).  Control flow and call order are embedded as Lean
functions and event traces that mirror the source line by line.
-/

namespace GpuTrasher

/-- HRESULT is a 32-bit signed integer; by the Windows FAILED macro a
negative value is a failure. -/
abbrev HRESULT := Int

/-- S_OK. -/
def S_OK : HRESULT := 0

/-- E_NOINTERFACE, 0x80004002 read as a signed 32-bit value: the initial
value of `hr` in FindD3D12HardwareAdapter (utils.cpp line 12). -/
def E_NOINTERFACE : HRESULT := -2147467262

/-- E_FAIL, 0x80004005 read as a signed 32-bit value; used as an arbitrary
concrete failing HRESULT. -/
def E_FAIL : HRESULT := -2147467259

/-- The FAILED macro: an HRESULT denotes failure iff it is negative. -/
def FAILED (hr : HRESULT) : Bool := hr < 0

/-- The SUCCEEDED macro: an HRESULT denotes success iff it is nonnegative. -/
def SUCCEEDED (hr : HRESULT) : Bool := 0 ≤ hr

/-- hello-triangle.cpp lines 68-75: `ThrowIfFailed` throws a generic
`std::exception` exactly when the HRESULT satisfies FAILED.  The thrown
exception is modelled as `Except.error ()`. -/
def ThrowIfFailed (hr : HRESULT) : Except Unit Unit :=
  if FAILED hr then Except.error () else Except.ok ()

/-- A straight-line sequence of graphics calls, each routed through
`ThrowIfFailed` (or through an equivalent explicit `if (FAILED(hr)) throw`
block, as at hello-triangle.cpp lines 286-290, 324-328 and 345-349): the
first failing call raises and nothing later runs; there is no handler. -/
def runChecks : List HRESULT → Except Unit Unit
  | [] => Except.ok ()
  | hr :: rest =>
    match ThrowIfFailed hr with
    | Except.error e => Except.error e
    | Except.ok _ => runChecks rest

/-- A DXGI adapter as observed by FindD3D12HardwareAdapter: whether its
DXGI_ADAPTER_DESC1 carries DXGI_ADAPTER_FLAG_SOFTWARE (utils.cpp line 23),
and the HRESULT of the probing D3D12CreateDevice call at feature level
12_0 against it (utils.cpp lines 30-34). -/
structure AdapterInfo where
  isSoftware : Bool
  d3d12Probe : HRESULT
deriving DecidableEq

/-- The enumeration loop of utils.cpp lines 16-42.  `outAdapter` is the
callee's copy of the by-value ComPtr parameter, `hr` the running HRESULT
(initialized to E_NOINTERFACE before the loop).  A software adapter is
skipped with `hr` untouched; otherwise `hr` becomes the probe result, and
on SUCCEEDED the loop detaches the adapter into the parameter copy, sets
`hr = S_OK` and breaks.  EnumAdapters1 failing (list exhausted) ends the
loop. -/
def findAdapterLoop (outAdapter : Option AdapterInfo) (hr : HRESULT) :
    List AdapterInfo → HRESULT × Option AdapterInfo
  | [] => (hr, outAdapter)
  | a :: rest =>
    if a.isSoftware then findAdapterLoop outAdapter hr rest
    else if SUCCEEDED a.d3d12Probe then (S_OK, some a)
    else findAdapterLoop outAdapter a.d3d12Probe rest

/-- utils.cpp lines 8-45: returns the HRESULT together with the final
value of the (by-value) `outAdapter` parameter copy. -/
def FindD3D12HardwareAdapter (outAdapter : Option AdapterInfo)
    (adapters : List AdapterInfo) : HRESULT × Option AdapterInfo :=
  findAdapterLoop outAdapter E_NOINTERFACE adapters

/-- hello-triangle.cpp lines 144-152: `ComPtr<IDXGIAdapter1> dxgiAdapter`
is default-constructed (null), passed to FindD3D12HardwareAdapter, and
then handed to D3D12CreateDevice.  Because the `outAdapter` parameter of
FindD3D12HardwareAdapter (utils.h lines 6-8) is declared by value, the
callee mutates only its own ComPtr copy; under C++ call semantics the
caller's variable is unchanged by the call, which this definition
embeds. -/
def LoadPipelineAdapterForCreateDevice (adapters : List AdapterInfo) :
    Option AdapterInfo :=
  let dxgiAdapter : Option AdapterInfo := none
  let _call := FindD3D12HardwareAdapter dxgiAdapter adapters
  dxgiAdapter

/-- HRESULT outcomes of every fallible graphics call of LoadPipeline
(hello-triangle.cpp lines 108-239, _DEBUG configuration, which is the only
configuration that compiles: the release branch at line 308 declares
`compileFlag` but line 319 uses `compileFlags`). -/
structure PipelineEnv where
  getDebugInterface : HRESULT
  queryDebugInterface : HRESULT
  createFactory : HRESULT
  adapters : List AdapterInfo
  createDevice : HRESULT
  createCommandQueue : HRESULT
  createSwapChainForHwnd : HRESULT
  makeWindowAssociation : HRESULT
  swapchainAs : HRESULT
  createRtvDescriptorHeap : HRESULT
  createCbvDescriptorHeap : HRESULT
  getBuffer0 : HRESULT
  getBuffer1 : HRESULT
  createCommandAllocator : HRESULT

/-- The HRESULTs routed through ThrowIfFailed by LoadPipeline, in source
order (lines 128, 132, 142, 146, 149, 158, 173, 183, 185, 194, 209, 222
with i = 0 and i = 1, 236).  The fourth entry is the return value of
FindD3D12HardwareAdapter, wrapped by ThrowIfFailed at line 146. -/
def LoadPipelineChecks (env : PipelineEnv) : List HRESULT :=
  [env.getDebugInterface, env.queryDebugInterface, env.createFactory,
   (FindD3D12HardwareAdapter none env.adapters).1,
   env.createDevice, env.createCommandQueue, env.createSwapChainForHwnd,
   env.makeWindowAssociation, env.swapchainAs,
   env.createRtvDescriptorHeap, env.createCbvDescriptorHeap,
   env.getBuffer0, env.getBuffer1, env.createCommandAllocator]

/-- LoadPipeline as a fallible computation: it raises exactly when one of
its routed calls fails, and nothing catches the exception. -/
def LoadPipelineE (env : PipelineEnv) : Except Unit Unit :=
  runChecks (LoadPipelineChecks env)

/-- D3D root signature versions as selected at lines 245-260. -/
inductive RootSigVersion where
  | v1_0
  | v1_1
deriving DecidableEq

/-- hello-triangle.cpp lines 245-260: HighestVersion is set to 1_1; when
the CheckFeatureSupport call FAILED, the code falls back to version 1_0
instead of raising. -/
def rootSigHighestVersion (checkFeatureSupportHr : HRESULT) : RootSigVersion :=
  if FAILED checkFeatureSupportHr then RootSigVersion.v1_0 else RootSigVersion.v1_1

/-- HRESULT outcomes of every fallible graphics call of LoadAssets
(hello-triangle.cpp lines 241-501).  `checkFeatureSupport` is the call at
lines 252-255, whose failure is not routed into a throw. -/
structure AssetsEnv where
  checkFeatureSupport : HRESULT
  serializeRootSignature : HRESULT
  createRootSignature : HRESULT
  compileVS : HRESULT
  compilePS : HRESULT
  createGraphicsPipelineState : HRESULT
  createCommandList : HRESULT
  closeCommandList : HRESULT
  createVertexBuffer : HRESULT
  mapVertexBuffer : HRESULT
  createConstantBuffer : HRESULT
  mapConstantBuffer : HRESULT
  createFence : HRESULT

/-- The HRESULTs whose failure makes LoadAssets throw, in source order
(lines 281 explicit throw, 292, 313 explicit throw, 334 explicit throw,
374, 379, 388, 407, 418, 436, 462, 484).  `checkFeatureSupport` is
deliberately absent: its failure only selects the 1_0 root-signature
version (lines 257-260). -/
def LoadAssetsChecks (env : AssetsEnv) : List HRESULT :=
  [env.serializeRootSignature, env.createRootSignature,
   env.compileVS, env.compilePS,
   env.createGraphicsPipelineState, env.createCommandList,
   env.closeCommandList, env.createVertexBuffer, env.mapVertexBuffer,
   env.createConstantBuffer, env.mapConstantBuffer, env.createFence]

/-- LoadAssets as a fallible computation returning the root-signature
version it used.  The CheckFeatureSupport HRESULT influences only that
version, never a throw. -/
def LoadAssetsE (env : AssetsEnv) : Except Unit RootSigVersion :=
  match runChecks (LoadAssetsChecks env) with
  | Except.error e => Except.error e
  | Except.ok _ => Except.ok (rootSigHighestVersion env.checkFeatureSupport)

/-- A concrete environment in which the CheckFeatureSupport call at lines
252-255 returns E_FAIL and every other graphics call succeeds. -/
def assetsEnvCheckFail : AssetsEnv :=
  { checkFeatureSupport := E_FAIL
    serializeRootSignature := S_OK
    createRootSignature := S_OK
    compileVS := S_OK
    compilePS := S_OK
    createGraphicsPipelineState := S_OK
    createCommandList := S_OK
    closeCommandList := S_OK
    createVertexBuffer := S_OK
    mapVertexBuffer := S_OK
    createConstantBuffer := S_OK
    mapConstantBuffer := S_OK
    createFence := S_OK }

/-- A concrete hardware adapter whose D3D12 probe succeeds. -/
def hwAdapterOk : AdapterInfo := { isSoftware := false, d3d12Probe := S_OK }

/-- A concrete software adapter. -/
def softAdapter : AdapterInfo := { isSoftware := true, d3d12Probe := S_OK }

/-- A concrete hardware adapter whose D3D12 probe fails. -/
def hwAdapterFail : AdapterInfo := { isSoftware := false, d3d12Probe := E_FAIL }

/-- The modulus of the UINT64 fence value. -/
def U64 : Nat := 2 ^ 64

/-- The synchronization fields of the Pipeline aggregate touched by
WaitForPreviousFrame: `fenceValue` (UINT64) and `frameIndex` (UINT). -/
structure SyncState where
  fenceValue : Nat
  frameIndex : Nat
deriving DecidableEq

/-- The individual actions performed by WaitForPreviousFrame
(hello-triangle.cpp lines 80-106), in the order they appear. -/
inductive WaitEv where
  | incrementFenceValue (newValue : Nat)
  | signalQueue (target : Nat)
  | compareCompleted (completed target : Nat)
  | setEventOnCompletion (target : Nat)
  | waitSingleObject
  | queryBackBufferIndex (idx : Nat)
deriving DecidableEq

/-- hello-triangle.cpp lines 80-106.  `completedValue` is the value the
call `fence->GetCompletedValue()` observes (GPU progress is external);
`backBufferIndex` is what `swapchain->GetCurrentBackBufferIndex()`
returns.  The function increments the UINT64 fence value (wrapping modulo
2 ^ 64), signals the queue with the new value, compares the observed
completed value against it and, only when the completed value is lower,
sets the event and blocks on it; finally it stores the current back-buffer
index into `frameIndex`.  The result is the trace of actions and the
updated synchronization state. -/
def WaitForPreviousFrame (s : SyncState) (completedValue backBufferIndex : Nat) :
    List WaitEv × SyncState :=
  let fv := (s.fenceValue + 1) % U64
  let head := [WaitEv.incrementFenceValue fv, WaitEv.signalQueue fv,
               WaitEv.compareCompleted completedValue fv]
  let waitPart :=
    if completedValue < fv then
      [WaitEv.setEventOnCompletion fv, WaitEv.waitSingleObject]
    else []
  (head ++ waitPart ++ [WaitEv.queryBackBufferIndex backBufferIndex],
   { fenceValue := fv, frameIndex := backBufferIndex })

/-- The fence value after the initialization `fenceValue = 0` of
LoadAssets (line 482) followed by k calls to WaitForPreviousFrame (the
observed completed value and back-buffer index do not influence the fence
value). -/
def fenceValueAfterWaits : Nat → Nat
  | 0 => 0
  | k + 1 => ((WaitForPreviousFrame ⟨fenceValueAfterWaits k, 0⟩ 0 0).2).fenceValue

/-- Window message numbers from the Windows headers. -/
def WM_CREATE : Nat := 1

/-- WM_DESTROY. -/
def WM_DESTROY : Nat := 2

/-- WM_PAINT. -/
def WM_PAINT : Nat := 15

/-- WM_QUIT. -/
def WM_QUIT : Nat := 18

/-- The top-level calls of WinMain, WindowProc and Render, at the
granularity at which the spec describes them. -/
inductive AppStep where
  | registerClass
  | adjustWindowRect
  | createWindow
  | loadPipeline
  | loadAssets
  | showWindow
  | messageLoop
  | destroy
  | setWindowLongPtr
  | populateCommandList
  | executeCommandLists
  | present
  | waitForPreviousFrame
  | postQuitMessage
  | defWindowProc
deriving DecidableEq

/-- Render, hello-triangle.cpp lines 568-581: record commands, submit the
command list, present, wait for the GPU — in that order, nothing else. -/
def RenderSteps : List AppStep :=
  [AppStep.populateCommandList, AppStep.executeCommandLists,
   AppStep.present, AppStep.waitForPreviousFrame]

/-- WindowProc, hello-triangle.cpp lines 647-677: the switch on the
message number.  WM_CREATE stores the Pipeline pointer and falls through
to DefWindowProc; WM_PAINT runs Render and returns 0; WM_DESTROY posts the
quit message and returns 0; everything else goes to DefWindowProc. -/
def windowProcSteps (message : Nat) : List AppStep :=
  if message = WM_CREATE then [AppStep.setWindowLongPtr, AppStep.defWindowProc]
  else if message = WM_PAINT then RenderSteps
  else if message = WM_DESTROY then [AppStep.postQuitMessage]
  else [AppStep.defWindowProc]

/-- WinMain, hello-triangle.cpp lines 590-645: register the window class,
adjust the rectangle, create the window; if the window was created, run
LoadPipeline then LoadAssets once, show the window, enter the message
pump, and on exit run Destroy. -/
def WinMainSteps (windowCreated : Bool) : List AppStep :=
  [AppStep.registerClass, AppStep.adjustWindowRect, AppStep.createWindow] ++
  (if windowCreated then
     [AppStep.loadPipeline, AppStep.loadAssets, AppStep.showWindow,
      AppStep.messageLoop, AppStep.destroy]
   else [])

/-- Vertex, hello-triangle.cpp lines 24-28: an XMFLOAT3 position and an
XMFLOAT4 color.  Every coordinate appearing in this program (multiples of
1/32) is exactly representable as a 32-bit float, so ℚ is a faithful
carrier for the values. -/
structure Vertex where
  position : ℚ × ℚ × ℚ
  color : ℚ × ℚ × ℚ × ℚ
deriving DecidableEq

/-- s_RenderWidth (line 20). -/
def s_RenderWidth : ℚ := 1080

/-- s_RenderHeight (line 21). -/
def s_RenderHeight : ℚ := 960

/-- LoadAssets line 392 (exact in float arithmetic: 1080 / 960 = 9/8). -/
def aspectRatio : ℚ := s_RenderWidth / s_RenderHeight

/-- The vertex array of LoadAssets, lines 394-399. -/
def triangleVertices : List Vertex :=
  [{ position := (0, 0.25 * aspectRatio, 0), color := (1, 0, 0, 1) },
   { position := (0.25, -(0.25 * aspectRatio), 0), color := (0, 1, 0, 1) },
   { position := (-0.25, -(0.25 * aspectRatio), 0), color := (0, 0, 1, 1) }]

/-- The hardcoded absolute shader source path (lines 314 and 335). -/
def shaderSourcePath : String := "C:/projects/gputrasher/src/hello-triangle.hlsl"

/-- Vertex shader entry point (line 317). -/
def vsEntry : String := "VSMain"

/-- Vertex shader target (line 318). -/
def vsTarget : String := "vs_5_0"

/-- Pixel shader entry point (line 338). -/
def psEntry : String := "PSMain"

/-- Pixel shader target (line 339). -/
def psTarget : String := "ps_5_0"

/-- The observable operations of the program, at the granularity of the
individual graphics/OS calls the claims are about.  WaitForPreviousFrame
appears as a single event here; its internal actions are the WaitEv trace
above and include no resource writes, shader compilations or releases. -/
inductive Ev where
  | createFactory
  | findAdapter
  | createDevice
  | createCommandQueue
  | createSwapchain
  | makeWindowAssociation
  | createRtvHeap
  | createCbvHeap
  | createRenderTargetView (i : Nat)
  | createCommandAllocator
  | checkFeatureSupport
  | serializeRootSignature
  | createRootSignature
  | compileShader (path entry target : String)
  | createGraphicsPipelineState
  | createCommandList
  | closeCommandList
  | createVertexBuffer
  | mapVertexBuffer
  | writeVertexBuffer (vertices : List Vertex)
  | unmapVertexBuffer
  | setVertexBufferView
  | createConstantBuffer
  | createConstantBufferView
  | writeConstBufferData
  | mapConstantBuffer
  | memcpyConstantBuffer
  | releaseConstantBuffer
  | initFenceValue (v : Nat)
  | createFence
  | createFenceEvent
  | waitForPreviousFrame
  | showWindow
  | cmdAllocReset
  | cmdListReset
  | setGraphicsRootSignature
  | setDescriptorHeaps
  | setGraphicsRootDescriptorTable
  | rsSetViewports
  | rsSetScissorRects
  | barrierPresentToRenderTarget
  | omSetRenderTargets
  | clearRenderTargetView
  | iaSetPrimitiveTopology
  | iaSetVertexBuffers
  | drawInstanced (vertexCount instanceCount startVertex startInstance : Nat)
  | barrierRenderTargetToPresent
  | executeCommandLists
  | present
  | closeFenceEvent
  | freeConstBufferData

/-- The graphics calls of LoadPipeline (lines 108-239) in source order. -/
def loadPipelineEvents : List Ev :=
  [Ev.createFactory, Ev.findAdapter, Ev.createDevice, Ev.createCommandQueue,
   Ev.createSwapchain, Ev.makeWindowAssociation, Ev.createRtvHeap,
   Ev.createCbvHeap, Ev.createRenderTargetView 0, Ev.createRenderTargetView 1,
   Ev.createCommandAllocator]

/-- The calls of LoadAssets (lines 241-501) in source order: the root
signature block, both shader compilations from the hardcoded path, the
pipeline state and command list, the vertex-buffer block including the
single memcpy of the three vertices (line 422), the constant-buffer block
including the Map at line 462 never matched by an Unmap and the raw
Release at line 472, and the synchronization block with the fence value
initialized to 0 (line 482) and the trailing WaitForPreviousFrame call
(line 499). -/
def loadAssetsEvents : List Ev :=
  [Ev.checkFeatureSupport, Ev.serializeRootSignature, Ev.createRootSignature,
   Ev.compileShader shaderSourcePath vsEntry vsTarget,
   Ev.compileShader shaderSourcePath psEntry psTarget,
   Ev.createGraphicsPipelineState, Ev.createCommandList, Ev.closeCommandList,
   Ev.createVertexBuffer, Ev.mapVertexBuffer,
   Ev.writeVertexBuffer triangleVertices,
   Ev.unmapVertexBuffer, Ev.setVertexBufferView,
   Ev.createConstantBuffer, Ev.createConstantBufferView,
   Ev.writeConstBufferData, Ev.mapConstantBuffer, Ev.memcpyConstantBuffer,
   Ev.releaseConstantBuffer,
   Ev.initFenceValue 0, Ev.createFence, Ev.createFenceEvent,
   Ev.waitForPreviousFrame]

/-- PopulateCommandList (lines 503-566) in source order, ending in the
single draw of 3 vertices and 1 instance (line 553). -/
def PopulateCommandListEvents : List Ev :=
  [Ev.cmdAllocReset, Ev.cmdListReset, Ev.setGraphicsRootSignature,
   Ev.setDescriptorHeaps, Ev.setGraphicsRootDescriptorTable,
   Ev.rsSetViewports, Ev.rsSetScissorRects,
   Ev.barrierPresentToRenderTarget, Ev.omSetRenderTargets,
   Ev.clearRenderTargetView, Ev.iaSetPrimitiveTopology,
   Ev.iaSetVertexBuffers, Ev.drawInstanced 3 1 0 0,
   Ev.barrierRenderTargetToPresent, Ev.closeCommandList]

/-- Render (lines 568-581): record, submit, present, wait. -/
def renderEvents : List Ev :=
  PopulateCommandListEvents ++
  [Ev.executeCommandLists, Ev.present, Ev.waitForPreviousFrame]

/-- Destroy (lines 583-588). -/
def destroyEvents : List Ev :=
  [Ev.waitForPreviousFrame, Ev.closeFenceEvent, Ev.freeConstBufferData]

/-- The message pump processing n paint dispatches: each WM_PAINT runs
Render (lines 630-637 and 662-666). -/
def frameLoopEvents : Nat → List Ev
  | 0 => []
  | n + 1 => renderEvents ++ frameLoopEvents n

/-- Reference-count and mapping state of the constant-buffer resource,
together with whether the Pipeline's `constantBuffer` ComPtr member still
holds its pointer. -/
structure CBState where
  comPtrHolds : Bool
  refCount : Int
  mapped : Bool
deriving DecidableEq

/-- `Pipeline pipeline = {}` (line 606): the ComPtr member is null. -/
def cbInit : CBState := { comPtrHolds := false, refCount := 0, mapped := false }

/-- CreateCommittedResource (line 436): the resource is created with one
reference, held by the ComPtr member. -/
def cbCreate (_s : CBState) : CBState :=
  { comPtrHolds := true, refCount := 1, mapped := false }

/-- Map (line 462); no matching Unmap exists for the constant buffer. -/
def cbMap (s : CBState) : CBState := { s with mapped := true }

/-- `pPipeline->constantBuffer->Release()` (line 472): a raw Release
through ComPtr::operator->, which decrements the reference count but
leaves the ComPtr member holding the same pointer. -/
def cbManualRelease (s : CBState) : CBState := { s with refCount := s.refCount - 1 }

/-- The ComPtr destructor run when the Pipeline aggregate goes out of
scope at the end of WinMain: it calls Release exactly when it still holds
a pointer. -/
def cbComPtrDtor (s : CBState) : CBState :=
  if s.comPtrHolds then { s with refCount := s.refCount - 1, comPtrHolds := false }
  else s

/-- Constant-buffer state at the end of LoadAssets: create, map, then the
raw Release of line 472. -/
def cbAfterLoadAssets : CBState := cbManualRelease (cbMap (cbCreate cbInit))

/-- The release events the ComPtr destructor emits for the constant
buffer, as a function of whether the member still holds its pointer. -/
def pipelineDtorEvents (cbHeld : Bool) : List Ev :=
  if cbHeld then [Ev.releaseConstantBuffer] else []

/-- The whole-program event trace for a run whose message pump dispatches
n paint events: LoadPipeline, LoadAssets, ShowWindow, the frame loop,
Destroy, and the Pipeline aggregate's destructor (WinMain, lines
590-645). -/
def programEvents (n : Nat) : List Ev :=
  loadPipelineEvents ++ loadAssetsEvents ++ [Ev.showWindow] ++
  frameLoopEvents n ++ destroyEvents ++
  pipelineDtorEvents cbAfterLoadAssets.comPtrHolds

/-- Does an event write the vertex buffer contents? -/
def isVertexWrite : Ev → Bool
  | Ev.writeVertexBuffer _ => true
  | _ => false

/-- Is an event a draw call? -/
def isDraw : Ev → Bool
  | Ev.drawInstanced _ _ _ _ => true
  | _ => false

/-- Is an event a shader compilation? -/
def isCompile : Ev → Bool
  | Ev.compileShader _ _ _ => true
  | _ => false

/-- Does an event modify Pipeline.fenceValue?  Only the initialization in
LoadAssets (line 482) and the increment inside WaitForPreviousFrame (line
88) do. -/
def isFenceValueWrite : Ev → Bool
  | Ev.initFenceValue _ => true
  | Ev.waitForPreviousFrame => true
  | _ => false

/-- Is an event a Release of the constant-buffer resource? -/
def isReleaseCB : Ev → Bool
  | Ev.releaseConstantBuffer => true
  | _ => false

/-- Is an event a call to WaitForPreviousFrame? -/
def isWaitCall : Ev → Bool
  | Ev.waitForPreviousFrame => true
  | _ => false

/-- ThrowIfFailed raises exactly on a FAILED HRESULT. -/
theorem ThrowIfFailed_error_iff (hr : HRESULT) :
    ThrowIfFailed hr = Except.error () ↔ FAILED hr = true := by
  unfold ThrowIfFailed
  cases h : FAILED hr <;> simp [h]

/-- A ThrowIfFailed sequence completes normally iff no call in it failed. -/
theorem runChecks_ok_iff (l : List HRESULT) :
    runChecks l = Except.ok () ↔ ∀ hr ∈ l, FAILED hr = false := by
  induction l with
  | nil => simp [runChecks]
  | cons hr rest ih =>
    unfold runChecks ThrowIfFailed
    cases h : FAILED hr <;> simp [h, ih]

/-- A ThrowIfFailed sequence raises iff some call in it failed. -/
theorem runChecks_error_iff (l : List HRESULT) :
    runChecks l = Except.error () ↔ ∃ hr ∈ l, FAILED hr = true := by
  induction l with
  | nil => simp [runChecks]
  | cons hr rest ih =>
    unfold runChecks ThrowIfFailed
    cases h : FAILED hr <;> simp [h, ih]

/-- Claim C1 (counterexample): the claim says every graphics API call that
returns a failure results in a raised exception.  It is false on the code:
the CheckFeatureSupport call of LoadAssets (hello-triangle.cpp lines
252-255) can return a FAILED HRESULT (concretely E_FAIL, with every other
call succeeding) and LoadAssets completes normally, merely falling back to
root-signature version 1_0 (lines 257-260). -/
theorem C1_counterexample :
    ¬ (∀ env : AssetsEnv, FAILED env.checkFeatureSupport = true →
        LoadAssetsE env = Except.error ()) := by
  intro hclaim
  have h := hclaim assetsEnvCheckFail rfl
  rw [show LoadAssetsE assetsEnvCheckFail = Except.ok RootSigVersion.v1_0 from rfl] at h
  exact Except.noConfusion h

/-- Claim C1 (amended): every call site routed through ThrowIfFailed (or
through the equivalent explicit FAILED-then-throw blocks) throws on any
FAILED HRESULT, and the exception propagates uncaught: LoadPipeline
completes normally iff none of its routed calls failed, and LoadAssets
raises iff one of its throw-routed calls failed.  However, not every
failed graphics API call raises: a FAILED CheckFeatureSupport never makes
LoadAssets raise — when everything else succeeds, LoadAssets completes
with the version-1_0 fallback. -/
theorem C1_amended_thm :
    (∀ hr, ThrowIfFailed hr = Except.error () ↔ FAILED hr = true) ∧
    (∀ env : PipelineEnv, LoadPipelineE env = Except.ok () ↔
      ∀ hr ∈ LoadPipelineChecks env, FAILED hr = false) ∧
    (∀ env : AssetsEnv, LoadAssetsE env = Except.error () ↔
      ∃ hr ∈ LoadAssetsChecks env, FAILED hr = true) ∧
    (∀ env : AssetsEnv, FAILED env.checkFeatureSupport = true →
      LoadAssetsE env ≠ Except.error () →
      LoadAssetsE env = Except.ok RootSigVersion.v1_0) := by
  refine ⟨ThrowIfFailed_error_iff, ?_, ?_, ?_⟩
  · intro env
    exact runChecks_ok_iff (LoadPipelineChecks env)
  · intro env
    cases h : runChecks (LoadAssetsChecks env) with
    | error e =>
      cases e
      simpa [LoadAssetsE, h] using (runChecks_error_iff (LoadAssetsChecks env)).mp h
    | ok u =>
      cases u
      have hall := (runChecks_ok_iff (LoadAssetsChecks env)).mp h
      simpa [LoadAssetsE, h] using hall
  · intro env hcf hne
    cases h : runChecks (LoadAssetsChecks env) with
    | error e =>
      cases e
      exact absurd (by simp [LoadAssetsE, h]) hne
    | ok u =>
      cases u
      simp [LoadAssetsE, h, rootSigHighestVersion, hcf]

/-- Claim C1 (witness): the amended theorem applied at the concrete
environment where only CheckFeatureSupport fails. -/
theorem C1_amended_witness :
    LoadAssetsE assetsEnvCheckFail = Except.ok RootSigVersion.v1_0 := by
  have h1 : FAILED assetsEnvCheckFail.checkFeatureSupport = true := rfl
  have h2 : LoadAssetsE assetsEnvCheckFail ≠ Except.error () := by
    rw [show LoadAssetsE assetsEnvCheckFail = Except.ok RootSigVersion.v1_0 from rfl]
    intro h
    exact Except.noConfusion h
  exact C1_amended_thm.2.2.2 assetsEnvCheckFail h1 h2

/-- Claim C2 (counterexample): the claim says every call to
WaitForPreviousFrame performs the fence-event wait unconditionally,
regardless of the fence's already-completed value.  It is false on the
code: the WaitForSingleObject call sits under
`if (GetCompletedValue() < fenceValue)` (hello-triangle.cpp lines 96-103);
with fenceValue previously 0 (target 1) and an observed completed value of
1, no wait happens. -/
theorem C2_counterexample :
    ¬ (∀ (s : SyncState) (completedValue backBufferIndex : Nat),
        WaitEv.waitSingleObject ∈
          (WaitForPreviousFrame s completedValue backBufferIndex).1) := by
  intro h
  have h0 := h ⟨0, 0⟩ 1 0
  have hno : WaitEv.waitSingleObject ∉ (WaitForPreviousFrame ⟨0, 0⟩ 1 0).1 := by
    decide
  exact hno h0

/-- Claim C2 (amended): the routine is invoked on every frame (Render
performs exactly one WaitForPreviousFrame call), but the event wait is
conditional: WaitForSingleObject is executed exactly when the observed
completed value is below the new target value, and is skipped when the
fence has already reached the target; the event is armed
(SetEventOnCompletion) in exactly the same case. -/
theorem C2_amended_thm :
    renderEvents.countP isWaitCall = 1 ∧
    (∀ (s : SyncState) (completedValue backBufferIndex : Nat),
      (WaitEv.waitSingleObject ∈
          (WaitForPreviousFrame s completedValue backBufferIndex).1 ↔
        completedValue < (s.fenceValue + 1) % U64) ∧
      (WaitEv.setEventOnCompletion ((s.fenceValue + 1) % U64) ∈
          (WaitForPreviousFrame s completedValue backBufferIndex).1 ↔
        completedValue < (s.fenceValue + 1) % U64)) := by
  constructor
  · decide
  · intro s c b
    constructor
    · unfold WaitForPreviousFrame
      by_cases h : c < (s.fenceValue + 1) % U64 <;> simp [h]
    · unfold WaitForPreviousFrame
      by_cases h : c < (s.fenceValue + 1) % U64 <;> simp [h]

/-- Claim C2 (witness): the amended theorem applied at a concrete state
where the completed value is below the target, so the wait does occur. -/
theorem C2_amended_witness :
    WaitEv.waitSingleObject ∈ (WaitForPreviousFrame ⟨0, 0⟩ 0 0).1 :=
  ((C2_amended_thm.2 ⟨0, 0⟩ 0 0).1).mpr (by decide)

/-- Claim C3: every execution of WaitForPreviousFrame performs exactly the
four-step protocol in order and nothing else — (1) increment the CPU-side
fence value, (2) signal the queue with that value, (3) compare the
observed completed value against the target and (only) when it is lower
arm the event and wait on it, (4) query the back-buffer index and store it
as the frame index. -/
theorem C3_thm :
    ∀ (s : SyncState) (completedValue backBufferIndex : Nat),
      (WaitForPreviousFrame s completedValue backBufferIndex).1 =
        [WaitEv.incrementFenceValue ((s.fenceValue + 1) % U64),
         WaitEv.signalQueue ((s.fenceValue + 1) % U64),
         WaitEv.compareCompleted completedValue ((s.fenceValue + 1) % U64)] ++
        (if completedValue < (s.fenceValue + 1) % U64 then
           [WaitEv.setEventOnCompletion ((s.fenceValue + 1) % U64),
            WaitEv.waitSingleObject]
         else []) ++
        [WaitEv.queryBackBufferIndex backBufferIndex] ∧
      (WaitForPreviousFrame s completedValue backBufferIndex).2 =
        { fenceValue := (s.fenceValue + 1) % U64, frameIndex := backBufferIndex } :=
  fun _ _ _ => ⟨rfl, rfl⟩

/-- Claim C3 (witness): the protocol theorem evaluated at a concrete
state. -/
theorem C3_witness :
    (WaitForPreviousFrame ⟨0, 0⟩ 0 0).2 = { fenceValue := 1, frameIndex := 0 } := by
  rw [(C3_thm ⟨0, 0⟩ 0 0).2]
  decide

/-- The fence value after k WaitForPreviousFrame calls is k modulo 2^64. -/
theorem fenceValueAfterWaits_eq (k : Nat) : fenceValueAfterWaits k = k % U64 := by
  induction k with
  | zero => simp [fenceValueAfterWaits]
  | succ k ih =>
    have hU : U64 = 18446744073709551616 := by norm_num [U64]
    have hstep : fenceValueAfterWaits (k + 1) = (fenceValueAfterWaits k + 1) % U64 := rfl
    rw [hstep, ih, hU]
    omega

/-- Claim C4 (counterexample): the claim says every modification of
Pipeline.fenceValue strictly increases it and it is never reset.  The
increment at hello-triangle.cpp line 88 is UINT64 arithmetic: starting
from the 0 set in LoadAssets, after 2^64 - 1 calls the value is
2^64 - 1 and the next call wraps it to 0 — a decrease. -/
theorem C4_counterexample :
    fenceValueAfterWaits (U64 - 1) = U64 - 1 ∧
    fenceValueAfterWaits U64 = 0 ∧
    fenceValueAfterWaits U64 < fenceValueAfterWaits (U64 - 1) := by
  have hU : U64 = 18446744073709551616 := by norm_num [U64]
  have h1 := fenceValueAfterWaits_eq (U64 - 1)
  have h2 := fenceValueAfterWaits_eq U64
  rw [hU] at h1 h2 ⊢
  refine ⟨by omega, by omega, by omega⟩

/-- Claim C4 (amended): the fence value is initialized to 0 in LoadAssets;
the only events that modify it are that initialization and the increment
inside WaitForPreviousFrame; each call increments it by exactly 1 modulo
2^64, hence strictly increases it for the first 2^64 - 1 calls of the
program's lifetime. -/
theorem C4_amended_thm :
    fenceValueAfterWaits 0 = 0 ∧
    (∀ (s : SyncState) (completedValue backBufferIndex : Nat),
      ((WaitForPreviousFrame s completedValue backBufferIndex).2).fenceValue =
        (s.fenceValue + 1) % U64) ∧
    (∀ k, k + 1 < U64 →
      fenceValueAfterWaits (k + 1) = fenceValueAfterWaits k + 1) ∧
    (∀ n, (programEvents n).filter isFenceValueWrite =
      Ev.initFenceValue 0 :: List.replicate (n + 2) Ev.waitForPreviousFrame) := by
  refine ⟨rfl, fun _ _ _ => rfl, ?_, ?_⟩
  · intro k hk
    have hU : U64 = 18446744073709551616 := by norm_num [U64]
    rw [fenceValueAfterWaits_eq, fenceValueAfterWaits_eq]
    rw [hU] at hk ⊢
    omega
  · intro n
    have hfl : (frameLoopEvents n).filter isFenceValueWrite =
        List.replicate n Ev.waitForPreviousFrame := by
      induction n with
      | zero => rfl
      | succ n ih =>
        rw [show frameLoopEvents (n + 1) = renderEvents ++ frameLoopEvents n from rfl,
          List.filter_append, ih,
          show renderEvents.filter isFenceValueWrite = [Ev.waitForPreviousFrame] from rfl,
          List.replicate_succ]
        rfl
    have h1 : loadPipelineEvents.filter isFenceValueWrite = [] := rfl
    have h2 : loadAssetsEvents.filter isFenceValueWrite =
        [Ev.initFenceValue 0, Ev.waitForPreviousFrame] := rfl
    have h3 : ([Ev.showWindow]).filter isFenceValueWrite = [] := rfl
    have h4 : destroyEvents.filter isFenceValueWrite = [Ev.waitForPreviousFrame] := rfl
    have h5 : (pipelineDtorEvents cbAfterLoadAssets.comPtrHolds).filter
        isFenceValueWrite = [] := rfl
    simp only [programEvents, List.filter_append, h1, h2, h3, h4, h5, hfl,
      List.nil_append, List.append_nil, List.cons_append]
    rw [show n + 2 = (n + 1) + 1 from rfl, List.replicate_succ,
      ← List.replicate_succ']

/-- Claim C4 (witness): the amended theorem applied at k = 1: the second
wait call raises the fence value from 1 to 2. -/
theorem C4_amended_witness :
    fenceValueAfterWaits 2 = fenceValueAfterWaits 1 + 1 := by
  have h : (1 : Nat) + 1 < U64 := by norm_num [U64]
  exact C4_amended_thm.2.2.1 1 h

/-- Claim C5: every paint dispatch runs exactly PopulateCommandList,
ExecuteCommandLists, Present, WaitForPreviousFrame in that order; no
message dispatch ever runs LoadPipeline or LoadAssets; and in WinMain the
initialization runs exactly once, LoadPipeline before LoadAssets before
the message pump. -/
theorem C5_thm :
    windowProcSteps WM_PAINT =
      [AppStep.populateCommandList, AppStep.executeCommandLists,
       AppStep.present, AppStep.waitForPreviousFrame] ∧
    (∀ m, AppStep.loadPipeline ∉ windowProcSteps m ∧
      AppStep.loadAssets ∉ windowProcSteps m) ∧
    (WinMainSteps true).count AppStep.loadPipeline = 1 ∧
    (WinMainSteps true).count AppStep.loadAssets = 1 ∧
    List.findIdx (fun s => s == AppStep.loadPipeline) (WinMainSteps true) <
      List.findIdx (fun s => s == AppStep.loadAssets) (WinMainSteps true) ∧
    List.findIdx (fun s => s == AppStep.loadAssets) (WinMainSteps true) <
      List.findIdx (fun s => s == AppStep.messageLoop) (WinMainSteps true) := by
  refine ⟨by decide, ?_, by decide, by decide, by decide, by decide⟩
  intro m
  unfold windowProcSteps
  by_cases h1 : m = WM_CREATE
  · rw [if_pos h1]
    decide
  · rw [if_neg h1]
    by_cases h2 : m = WM_PAINT
    · rw [if_pos h2]
      decide
    · rw [if_neg h2]
      by_cases h3 : m = WM_DESTROY
      · rw [if_pos h3]
        decide
      · rw [if_neg h3]
        decide

/-- Claim C5 (witness): the theorem's per-message part evaluated at a
concrete non-paint message number. -/
theorem C5_witness : AppStep.loadPipeline ∉ windowProcSteps 100 :=
  (C5_thm.2.1 100).1

/-- When the adapter-search loop returns S_OK it does so from the branch
that detached an adapter into the parameter copy, so the copy is some
adapter (the running `hr` is FAILED everywhere else). -/
theorem findAdapterLoop_sok (l : List AdapterInfo) :
    ∀ (o : Option AdapterInfo) (hr : HRESULT), FAILED hr = true →
      (findAdapterLoop o hr l).1 = S_OK →
      ∃ a, (findAdapterLoop o hr l).2 = some a := by
  induction l with
  | nil =>
    intro o hr hf hok
    exfalso
    have : hr = S_OK := hok
    rw [this] at hf
    simp [FAILED, S_OK] at hf
  | cons a rest ih =>
    intro o hr hf hok
    by_cases hs : a.isSoftware
    · rw [show findAdapterLoop o hr (a :: rest) = findAdapterLoop o hr rest from by
        simp [findAdapterLoop, hs]] at hok ⊢
      exact ih o hr hf hok
    · by_cases hp : SUCCEEDED a.d3d12Probe
      · rw [show findAdapterLoop o hr (a :: rest) = (S_OK, some a) from by
          simp [findAdapterLoop, hs, hp]]
        exact ⟨a, rfl⟩
      · rw [show findAdapterLoop o hr (a :: rest) =
            findAdapterLoop o a.d3d12Probe rest from by
          simp [findAdapterLoop, hs, hp]] at hok ⊢
        have hf' : FAILED a.d3d12Probe = true := by
          simp only [SUCCEEDED, decide_eq_true_eq, not_le] at hp
          simpa [FAILED] using hp
        exact ih o a.d3d12Probe hf' hok

/-- Claim C6: FindD3D12HardwareAdapter receives its output parameter by
value: even when the search returns S_OK (in which case the callee's
parameter copy does hold the found adapter), the caller's `dxgiAdapter`
variable in LoadPipeline is unchanged, so LoadPipeline always hands a null
adapter pointer to D3D12CreateDevice. -/
theorem C6_thm :
    ∀ (adapters : List AdapterInfo) (o : Option AdapterInfo),
      ((FindD3D12HardwareAdapter o adapters).1 = S_OK →
        ∃ a, (FindD3D12HardwareAdapter o adapters).2 = some a) ∧
      LoadPipelineAdapterForCreateDevice adapters = none := by
  intro adapters o
  refine ⟨?_, rfl⟩
  intro hok
  exact findAdapterLoop_sok adapters o E_NOINTERFACE (by decide) hok

/-- Claim C6 (witness): with one working hardware adapter the search
returns S_OK and detaches the adapter into its parameter copy, yet
LoadPipeline still passes null to D3D12CreateDevice. -/
theorem C6_witness :
    (∃ a, (FindD3D12HardwareAdapter none [hwAdapterOk]).2 = some a) ∧
    LoadPipelineAdapterForCreateDevice [hwAdapterOk] = none :=
  ⟨(C6_thm [hwAdapterOk] none).1 (by decide), (C6_thm [hwAdapterOk] none).2⟩

/-- A loop over software-only adapters leaves both the running HRESULT and
the parameter copy untouched. -/
theorem findAdapterLoop_allSoftware (l : List AdapterInfo) :
    ∀ (o : Option AdapterInfo) (hr : HRESULT),
      (∀ a ∈ l, a.isSoftware = true) → findAdapterLoop o hr l = (hr, o) := by
  induction l with
  | nil => intro o hr _; rfl
  | cons a rest ih =>
    intro o hr h
    have ha : a.isSoftware = true := h a (List.mem_cons_self a rest)
    rw [show findAdapterLoop o hr (a :: rest) = findAdapterLoop o hr rest from by
      simp [findAdapterLoop, ha]]
    exact ih o hr fun x hx => h x (List.mem_cons_of_mem a hx)

/-- The loop stops at the first non-software adapter whose D3D12 probe
succeeds and returns S_OK with that adapter detached. -/
theorem findAdapterLoop_find (l : List AdapterInfo) :
    ∀ (o : Option AdapterInfo) (hr : HRESULT) (a : AdapterInfo),
      l.find? (fun x => !x.isSoftware && SUCCEEDED x.d3d12Probe) = some a →
      findAdapterLoop o hr l = (S_OK, some a) := by
  induction l with
  | nil => intro o hr a h; simp [List.find?] at h
  | cons x rest ih =>
    intro o hr a h
    by_cases hs : x.isSoftware
    · rw [List.find?_cons_of_neg _ (by simp [hs])] at h
      rw [show findAdapterLoop o hr (x :: rest) = findAdapterLoop o hr rest from by
        simp [findAdapterLoop, hs]]
      exact ih o hr a h
    · by_cases hq : SUCCEEDED x.d3d12Probe
      · rw [List.find?_cons_of_pos _ (by simp [hs, hq])] at h
        have hxa : x = a := by injection h
        subst hxa
        simp [findAdapterLoop, hs, hq]
      · rw [List.find?_cons_of_neg _ (by simp [hs, hq])] at h
        rw [show findAdapterLoop o hr (x :: rest) =
            findAdapterLoop o x.d3d12Probe rest from by
          simp [findAdapterLoop, hs, hq]]
        exact ih o x.d3d12Probe a h

/-- When every non-software adapter fails the probe, the loop's result
HRESULT is a failure (either the initial one or the last probe result). -/
theorem findAdapterLoop_allFail (l : List AdapterInfo) :
    ∀ (o : Option AdapterInfo) (hr : HRESULT), FAILED hr = true →
      (∀ a ∈ l, a.isSoftware = false → FAILED a.d3d12Probe = true) →
      FAILED (findAdapterLoop o hr l).1 = true := by
  induction l with
  | nil => intro o hr hf _; exact hf
  | cons a rest ih =>
    intro o hr hf h
    by_cases hs : a.isSoftware
    · rw [show findAdapterLoop o hr (a :: rest) = findAdapterLoop o hr rest from by
        simp [findAdapterLoop, hs]]
      exact ih o hr hf fun x hx => h x (List.mem_cons_of_mem a hx)
    · have hsf : a.isSoftware = false := by
        revert hs
        cases a.isSoftware <;> simp
      have hfp : FAILED a.d3d12Probe = true := h a (List.mem_cons_self a rest) hsf
      have hq : ¬ (SUCCEEDED a.d3d12Probe = true) := by
        simp only [FAILED, decide_eq_true_eq] at hfp
        simp only [SUCCEEDED, decide_eq_true_eq, not_le]
        exact hfp
      rw [show findAdapterLoop o hr (a :: rest) =
          findAdapterLoop o a.d3d12Probe rest from by
        simp [findAdapterLoop, hs, hq]]
      exact ih o a.d3d12Probe hfp fun x hx => h x (List.mem_cons_of_mem a hx)

/-- Claim C7: FindD3D12HardwareAdapter skips software adapters, stops at
the first enumerated hardware adapter whose feature-level-12_0 probe
succeeds and returns S_OK for it; an empty enumeration (and likewise a
software-only one, where `hr` is never reassigned) yields E_NOINTERFACE;
and when no non-software adapter supports D3D12 the result is a failure
HRESULT. -/
theorem C7_thm :
    (∀ o : Option AdapterInfo, FindD3D12HardwareAdapter o [] = (E_NOINTERFACE, o)) ∧
    (∀ (o : Option AdapterInfo) (adapters : List AdapterInfo),
      (∀ a ∈ adapters, a.isSoftware = true) →
      FindD3D12HardwareAdapter o adapters = (E_NOINTERFACE, o)) ∧
    (∀ (o : Option AdapterInfo) (adapters : List AdapterInfo) (a : AdapterInfo),
      adapters.find? (fun x => !x.isSoftware && SUCCEEDED x.d3d12Probe) = some a →
      FindD3D12HardwareAdapter o adapters = (S_OK, some a)) ∧
    (∀ (o : Option AdapterInfo) (adapters : List AdapterInfo),
      (∀ a ∈ adapters, a.isSoftware = false → FAILED a.d3d12Probe = true) →
      FAILED (FindD3D12HardwareAdapter o adapters).1 = true) := by
  refine ⟨fun o => rfl, ?_, ?_, ?_⟩
  · intro o adapters h
    exact findAdapterLoop_allSoftware adapters o E_NOINTERFACE h
  · intro o adapters a h
    exact findAdapterLoop_find adapters o E_NOINTERFACE a h
  · intro o adapters h
    exact findAdapterLoop_allFail adapters o E_NOINTERFACE (by decide) h

/-- Claim C7 (witness): the theorem applied to concrete adapter lists — a
software-only list yields E_NOINTERFACE; a mixed list yields S_OK with the
first working hardware adapter (the third entry); a list whose only
hardware adapter fails the probe yields a failure. -/
theorem C7_witness :
    FindD3D12HardwareAdapter none [softAdapter, softAdapter] =
      (E_NOINTERFACE, none) ∧
    FindD3D12HardwareAdapter none [softAdapter, hwAdapterFail, hwAdapterOk] =
      (S_OK, some hwAdapterOk) ∧
    FAILED (FindD3D12HardwareAdapter none [hwAdapterFail]).1 = true :=
  ⟨C7_thm.2.1 none _ (by decide),
   C7_thm.2.2.1 none _ hwAdapterOk (by decide),
   C7_thm.2.2.2 none _ (by decide)⟩

/-- A predicate matching no event of Render matches no event of the whole
frame loop. -/
theorem frameLoopEvents_filter_nil (p : Ev → Bool)
    (hp : renderEvents.filter p = []) :
    ∀ n, (frameLoopEvents n).filter p = [] := by
  intro n
  induction n with
  | zero => rfl
  | succ n ih =>
    rw [show frameLoopEvents (n + 1) = renderEvents ++ frameLoopEvents n from rfl,
      List.filter_append, hp, ih]
    rfl

/-- Each frame contributes exactly one draw call, always of 3 vertices and
1 instance. -/
theorem frameLoopEvents_filter_draw :
    ∀ n, (frameLoopEvents n).filter isDraw =
      List.replicate n (Ev.drawInstanced 3 1 0 0) := by
  intro n
  induction n with
  | zero => rfl
  | succ n ih =>
    rw [show frameLoopEvents (n + 1) = renderEvents ++ frameLoopEvents n from rfl,
      List.filter_append, ih,
      show renderEvents.filter isDraw = [Ev.drawInstanced 3 1 0 0] from rfl,
      List.replicate_succ]
    rfl

/-- The whole-program trace splits into the initialization part
(LoadPipeline then LoadAssets) followed by ShowWindow, the frame loop,
Destroy and the Pipeline destructor (which still holds the constant
buffer). -/
theorem programEvents_decomp (n : Nat) :
    programEvents n =
      (loadPipelineEvents ++ loadAssetsEvents) ++
      (Ev.showWindow ::
        (frameLoopEvents n ++ destroyEvents ++ pipelineDtorEvents true)) := by
  simp [programEvents, show cbAfterLoadAssets.comPtrHolds = true from rfl,
    List.append_assoc]

/-- Claim C8: the vertex buffer is written exactly once in the whole run,
during LoadAssets, with the 3-vertex triangle (each vertex a position and
a color); and every frame records exactly one draw, always
DrawInstanced(3, 1, 0, 0) — n frames yield exactly n such draws and no
other draw ever occurs. -/
theorem C8_thm :
    triangleVertices.length = 3 ∧
    loadAssetsEvents.filter isVertexWrite =
      [Ev.writeVertexBuffer triangleVertices] ∧
    (∀ n, (programEvents n).filter isVertexWrite =
      [Ev.writeVertexBuffer triangleVertices]) ∧
    PopulateCommandListEvents.filter isDraw = [Ev.drawInstanced 3 1 0 0] ∧
    (∀ n, (programEvents n).filter isDraw =
      List.replicate n (Ev.drawInstanced 3 1 0 0)) := by
  refine ⟨rfl, rfl, ?_, rfl, ?_⟩
  · intro n
    have hfl := frameLoopEvents_filter_nil isVertexWrite rfl n
    have h1 : loadPipelineEvents.filter isVertexWrite = [] := rfl
    have h2 : loadAssetsEvents.filter isVertexWrite =
        [Ev.writeVertexBuffer triangleVertices] := rfl
    have h3 : ([Ev.showWindow]).filter isVertexWrite = [] := rfl
    have h4 : destroyEvents.filter isVertexWrite = [] := rfl
    have h5 : (pipelineDtorEvents cbAfterLoadAssets.comPtrHolds).filter
        isVertexWrite = [] := rfl
    simp only [programEvents, List.filter_append, h1, h2, h3, h4, h5, hfl,
      List.nil_append, List.append_nil]
  · intro n
    have hfl := frameLoopEvents_filter_draw n
    have h1 : loadPipelineEvents.filter isDraw = [] := rfl
    have h2 : loadAssetsEvents.filter isDraw = [] := rfl
    have h3 : ([Ev.showWindow]).filter isDraw = [] := rfl
    have h4 : destroyEvents.filter isDraw = [] := rfl
    have h5 : (pipelineDtorEvents cbAfterLoadAssets.comPtrHolds).filter
        isDraw = [] := rfl
    simp only [programEvents, List.filter_append, h1, h2, h3, h4, h5, hfl,
      List.nil_append, List.append_nil]

/-- Claim C8 (witness): a one-frame run contains exactly one draw call,
of 3 vertices and 1 instance. -/
theorem C8_witness :
    (programEvents 1).filter isDraw = [Ev.drawInstanced 3 1 0 0] := by
  rw [C8_thm.2.2.2.2 1]
  rfl

/-- Claim C9: both shaders are compiled exactly once per run, inside
LoadAssets, from the single hardcoded absolute path — the vertex shader
with entry VSMain (target vs_5_0) and the pixel shader with entry PSMain
(target ps_5_0); no compilation from any other location ever occurs, and
all compilations precede ShowWindow and the message loop. -/
theorem C9_thm :
    loadAssetsEvents.filter isCompile =
      [Ev.compileShader shaderSourcePath vsEntry vsTarget,
       Ev.compileShader shaderSourcePath psEntry psTarget] ∧
    (∀ n, (programEvents n).filter isCompile =
      [Ev.compileShader shaderSourcePath vsEntry vsTarget,
       Ev.compileShader shaderSourcePath psEntry psTarget]) ∧
    (∀ n, programEvents n =
      (loadPipelineEvents ++ loadAssetsEvents) ++
      (Ev.showWindow ::
        (frameLoopEvents n ++ destroyEvents ++ pipelineDtorEvents true))) ∧
    (∀ n, (Ev.showWindow ::
        (frameLoopEvents n ++ destroyEvents ++ pipelineDtorEvents true)).filter
        isCompile = []) := by
  refine ⟨rfl, ?_, programEvents_decomp, ?_⟩
  · intro n
    have hfl := frameLoopEvents_filter_nil isCompile rfl n
    have h1 : loadPipelineEvents.filter isCompile = [] := rfl
    have h2 : loadAssetsEvents.filter isCompile =
        [Ev.compileShader shaderSourcePath vsEntry vsTarget,
         Ev.compileShader shaderSourcePath psEntry psTarget] := rfl
    have h3 : ([Ev.showWindow]).filter isCompile = [] := rfl
    have h4 : destroyEvents.filter isCompile = [] := rfl
    have h5 : (pipelineDtorEvents cbAfterLoadAssets.comPtrHolds).filter
        isCompile = [] := rfl
    simp only [programEvents, List.filter_append, h1, h2, h3, h4, h5, hfl,
      List.nil_append, List.append_nil]
  · intro n
    have hfl := frameLoopEvents_filter_nil isCompile rfl n
    have h4 : destroyEvents.filter isCompile = [] := rfl
    have h5 : (pipelineDtorEvents true).filter isCompile = [] := rfl
    simp only [List.filter_cons, List.filter_append, hfl, h4, h5,
      List.nil_append, List.append_nil]
    rfl

/-- Claim C9 (witness): a zero-frame run compiles exactly the two shaders
from the hardcoded path. -/
theorem C9_witness :
    (programEvents 0).filter isCompile =
      [Ev.compileShader shaderSourcePath vsEntry vsTarget,
       Ev.compileShader shaderSourcePath psEntry psTarget] :=
  C9_thm.2.1 0

/-- Claim C10: LoadAssets performs the raw Release of the constant buffer
(line 472) while the resource is mapped and while the Pipeline's ComPtr
member still holds its pointer; consequently the member releases it a
second time when the Pipeline aggregate is destroyed at the end of WinMain
(reference count 1 at creation, -1 after the destructor), for a total of
exactly 2 Release events in every run; the manual Release lies in the
initialization part of the trace, before any frame is rendered. -/
theorem C10_thm :
    (cbMap (cbCreate cbInit)).mapped = true ∧
    (cbMap (cbCreate cbInit)).comPtrHolds = true ∧
    cbAfterLoadAssets = { comPtrHolds := true, refCount := 0, mapped := true } ∧
    cbComPtrDtor cbAfterLoadAssets =
      { comPtrHolds := false, refCount := -1, mapped := true } ∧
    pipelineDtorEvents cbAfterLoadAssets.comPtrHolds = [Ev.releaseConstantBuffer] ∧
    (loadPipelineEvents ++ loadAssetsEvents).countP isReleaseCB = 1 ∧
    (∀ n, (frameLoopEvents n).countP isReleaseCB = 0) ∧
    (∀ n, (programEvents n).countP isReleaseCB = 2) ∧
    (∀ n, programEvents n =
      (loadPipelineEvents ++ loadAssetsEvents) ++
      (Ev.showWindow ::
        (frameLoopEvents n ++ destroyEvents ++ pipelineDtorEvents true))) := by
  have hframes : ∀ n, (frameLoopEvents n).countP isReleaseCB = 0 := by
    intro n
    rw [List.countP_eq_length_filter, frameLoopEvents_filter_nil isReleaseCB rfl n]
    rfl
  refine ⟨rfl, rfl, rfl, rfl, rfl, rfl, hframes, ?_, programEvents_decomp⟩
  intro n
  simp only [programEvents, List.countP_append, hframes n]
  rfl

/-- Claim C10 (witness): a two-frame run contains exactly two Release
events for the constant buffer. -/
theorem C10_witness : (programEvents 2).countP isReleaseCB = 2 :=
  C10_thm.2.2.2.2.2.2.2.1 2

end GpuTrasher
